import Mathlib

/-!
# pg_duckdb: database name resolution (`src/pg/db.cpp`)

The file `src/pg/db.cpp` defines two overloads in namespace `pgduckdb::pg`:

    const char *GetDatabaseName()         { return get_database_name(MyDatabaseId); }
    const char *GetDatabaseName(Oid dbid) { return get_database_name(dbid); }

Both forward to the PostgreSQL function `get_database_name` (declared in
`commands/dbcommands.h`); the first reads the PostgreSQL session global
`MyDatabaseId` (declared in `miscadmin.h`).

The embedding is state passing: a call takes the host state (the rows of the
`pg_database` catalog and the session global) and yields the outcome of the
call, the host state after the call and the list of catalog lookups that the
call issued to the host.
-/

namespace pgduckdb.pg

/-! ## Data model -/

/-- Object identifier of PostgreSQL (`typedef unsigned int Oid`). The code only
passes identifiers along and never computes with them, so no wrap-around can
occur and the natural numbers are used. -/
abbrev Oid := Nat

/-- One row of the host catalog `pg_database`, restricted to the two columns
read by `get_database_name`: the row identifier and the database name. -/
structure FormData_pg_database where
  oid : Oid
  datname : String
  deriving DecidableEq, Repr

/-- Host state visible to the code: the catalog state (rows of `pg_database`)
and the session state (the global `MyDatabaseId`, the database this backend is
connected to). -/
structure Env where
  pg_database : List FormData_pg_database
  MyDatabaseId : Oid
  deriving DecidableEq, Repr

/-- A value of the C type `const char *`: the null pointer, or a pointer to a
NUL-terminated string. -/
inductive CString where
  | null : CString
  | ptr (s : String) : CString
  deriving DecidableEq, Repr

/-- How a call of a function declared `const char *f(...)` inside a PostgreSQL
backend can end: it returns a pointer value to its caller, or it leaves through
an error raised with `ereport(ERROR, ...)`, in which case the caller receives
no value at all. -/
inductive Outcome where
  | returned (p : CString) : Outcome
  | raised (sqlerrcode : Nat) : Outcome
  deriving DecidableEq, Repr

/-- The call ended in a raised error instead of handing a value back. -/
def Outcome.isFailure : Outcome → Bool
  | Outcome.returned _ => false
  | Outcome.raised _ => true

/-- The call handed a name back to its caller (a non-null string, possibly the
empty one). -/
def Outcome.name? : Outcome → Option String
  | Outcome.returned (CString.ptr s) => some s
  | _ => none

/-- Everything a call produces: its outcome, the host state it leaves behind,
and the identifiers it asked the host catalog to look up, in call order. -/
structure Call where
  outcome : Outcome
  env : Env
  lookups : List Oid
  deriving DecidableEq, Repr

/-! ## Host function -/

/-- The catalog cache search `SearchSysCache1(DATABASEOID, dbid)` used by the
host: the `pg_database` row whose identifier is `dbid`, if there is one. -/
def SearchSysCache1_DATABASEOID (rows : List FormData_pg_database) (dbid : Oid) :
    Option FormData_pg_database :=
  rows.find? (fun r => r.oid == dbid)

/-- The host function `char *get_database_name(Oid dbid)` of PostgreSQL. It is
not defined in this repository; `db.cpp` only includes its declaration from
`commands/dbcommands.h`. The model follows the documented contract of that
function: "given a database OID, look up the name; returns a palloc'd string,
or NULL if no such database". It searches the catalog once, reads no session
state, and changes neither the catalog rows nor `MyDatabaseId`. -/
def get_database_name (env : Env) (dbid : Oid) : Call :=
  match SearchSysCache1_DATABASEOID env.pg_database dbid with
  | some dbtuple =>
      { outcome := Outcome.returned (CString.ptr dbtuple.datname), env := env, lookups := [dbid] }
  | none =>
      { outcome := Outcome.returned CString.null, env := env, lookups := [dbid] }

/-- The not-found outcome of the host catalog lookup: the null pointer handed
back as the return value. -/
def NotFound : Outcome := Outcome.returned CString.null

/-! ## The code of `src/pg/db.cpp` -/

/-- The overload `const char *GetDatabaseName()` (`db.cpp`, lines 10 to 13):
`return get_database_name(MyDatabaseId);`. -/
def GetDatabaseName (env : Env) : Call :=
  get_database_name env env.MyDatabaseId

/-- The overload `const char *GetDatabaseName(Oid dbid)` (`db.cpp`, lines 14 to
17): `return get_database_name(dbid);`. The two overloads share one name in
C++; the suffix tells them apart here. -/
def GetDatabaseName_Oid (env : Env) (dbid : Oid) : Call :=
  get_database_name env dbid

/-! ## Notions used to state the properties -/

/-- The identifier `id` is absent from the catalog: no row carries it. -/
def Absent (env : Env) (id : Oid) : Prop :=
  ∀ r ∈ env.pg_database, r.oid ≠ id

/-- Well-formed catalog state: row identifiers are unique (the host enforces
this with the unique index `pg_database_oid_index`). -/
def UniqueOids (env : Env) : Prop :=
  (env.pg_database.map (fun r => r.oid)).Nodup

instance (env : Env) (id : Oid) : Decidable (Absent env id) := by
  unfold Absent
  infer_instance

instance (env : Env) : Decidable (UniqueOids env) := by
  unfold UniqueOids
  infer_instance

/-- The catalog entry for `id`: all rows that carry the identifier `id`. -/
def entryFor (env : Env) (id : Oid) : List FormData_pg_database :=
  env.pg_database.filter (fun r => r.oid == id)

/-- A client that calls `GetDatabaseName(id)` `n` times in a row, every call
running on the host state that the previous call left behind, and collects the
outcomes in call order. -/
def callRepeatedly (id : Oid) : Nat → Env → List Outcome
  | 0, _ => []
  | n + 1, env =>
      (GetDatabaseName_Oid env id).outcome :: callRepeatedly id n (GetDatabaseName_Oid env id).env

/-- The host state after the database rows have been replaced from outside
(for example by `ALTER DATABASE ... RENAME` in another backend) while the
session stays the same. -/
def withCatalog (env : Env) (rows : List FormData_pg_database) : Env :=
  { env with pg_database := rows }

/-! ## Example states -/

/-- Catalog with database `5` named `"sales"`; the session is connected to it. -/
def envSales : Env :=
  { pg_database := [⟨1, "template1"⟩, ⟨5, "sales"⟩], MyDatabaseId := 5 }

/-- The same catalog after database `5` has been renamed to `"sales_eu"`. -/
def rowsSalesEu : List FormData_pg_database :=
  [⟨1, "template1"⟩, ⟨5, "sales_eu"⟩]

/-- A session still connected to database `5` after that database has been
dropped from the catalog. -/
def envDropped : Env :=
  { pg_database := [⟨1, "template1"⟩], MyDatabaseId := 5 }

/-- A different session (connected to database `7`) over a catalog that agrees
with `envSales` on database `5` only. -/
def envOther : Env :=
  { pg_database := [⟨7, "hr"⟩, ⟨5, "sales"⟩, ⟨1, "postgres"⟩], MyDatabaseId := 7 }

/-! ## Facts about the host catalog search -/

theorem search_of_mem_unique (rows : List FormData_pg_database) (r : FormData_pg_database)
    (hr : r ∈ rows) (hu : (rows.map (fun x => x.oid)).Nodup) :
    SearchSysCache1_DATABASEOID rows r.oid = some r := by
  induction rows with
  | nil => cases hr
  | cons a t ih =>
    simp only [List.map_cons, List.nodup_cons] at hu
    unfold SearchSysCache1_DATABASEOID at ih ⊢
    rcases List.mem_cons.mp hr with h | h
    · subst h
      simp
    · have hne : a.oid ≠ r.oid := fun e => hu.1 (e ▸ List.mem_map_of_mem (fun x => x.oid) h)
      rw [List.find?_cons_of_neg _ (by simpa using hne)]
      exact ih h hu.2

theorem search_of_absent (rows : List FormData_pg_database) (id : Oid)
    (h : ∀ r ∈ rows, r.oid ≠ id) : SearchSysCache1_DATABASEOID rows id = none := by
  unfold SearchSysCache1_DATABASEOID
  rw [List.find?_eq_none]
  intro r hr
  simpa using h r hr

theorem search_eq_head_filter (rows : List FormData_pg_database) (id : Oid) :
    SearchSysCache1_DATABASEOID rows id = (rows.filter (fun r => r.oid == id)).head? := by
  unfold SearchSysCache1_DATABASEOID
  induction rows with
  | nil => rfl
  | cons a t ih =>
    by_cases h : (a.oid == id) = true
    · simp [List.find?_cons, List.filter_cons, h]
    · simp only [List.find?_cons, List.filter_cons, h]
      exact ih

theorem get_database_name_of_row (env : Env) (r : FormData_pg_database)
    (hr : r ∈ env.pg_database) (hu : UniqueOids env) :
    get_database_name env r.oid =
      { outcome := Outcome.returned (CString.ptr r.datname), env := env, lookups := [r.oid] } := by
  unfold get_database_name
  rw [search_of_mem_unique env.pg_database r hr hu]

theorem get_database_name_of_absent (env : Env) (id : Oid) (h : Absent env id) :
    get_database_name env id =
      { outcome := Outcome.returned CString.null, env := env, lookups := [id] } := by
  unfold get_database_name
  rw [search_of_absent env.pg_database id h]

theorem get_database_name_env (env : Env) (id : Oid) : (get_database_name env id).env = env := by
  unfold get_database_name
  cases SearchSysCache1_DATABASEOID env.pg_database id <;> rfl

theorem get_database_name_lookups (env : Env) (id : Oid) :
    (get_database_name env id).lookups = [id] := by
  unfold get_database_name
  cases SearchSysCache1_DATABASEOID env.pg_database id <;> rfl

theorem get_database_name_outcome_congr (env1 env2 : Env) (id : Oid)
    (h : SearchSysCache1_DATABASEOID env1.pg_database id =
      SearchSysCache1_DATABASEOID env2.pg_database id) :
    (get_database_name env1 id).outcome = (get_database_name env2 id).outcome := by
  unfold get_database_name
  rw [h]
  cases SearchSysCache1_DATABASEOID env2.pg_database id <;> rfl

/-! ## Properties of `GetDatabaseName` -/

/-- Claim C1: in a catalog state with unique row identifiers, for every row
present in the catalog, `GetDatabaseName(Oid)` called with the identifier of
that row returns normally with a pointer to exactly the name stored in that
row, unmodified. -/
theorem GetDatabaseName_Oid_present (env : Env) (r : FormData_pg_database)
    (hr : r ∈ env.pg_database) (hu : UniqueOids env) :
    (GetDatabaseName_Oid env r.oid).outcome = Outcome.returned (CString.ptr r.datname) := by
  unfold GetDatabaseName_Oid
  rw [get_database_name_of_row env r hr hu]

/-- Scenario of claim C1: identifier `5` is named `"sales"`, and
`GetDatabaseName(5)` returns `"sales"`. -/
theorem GetDatabaseName_Oid_present_witness :
    (GetDatabaseName_Oid envSales 5).outcome = Outcome.returned (CString.ptr "sales") :=
  GetDatabaseName_Oid_present envSales ⟨5, "sales"⟩ (by decide) (by decide)

/-- Claim C2 as stated fails: identifier `999` is absent from the catalog of
`envSales`, yet `GetDatabaseName(999)` does not end in a raised error. It
returns normally, and the value it returns is the null pointer, that is, a
null name. -/
theorem GetDatabaseName_Oid_absent_is_null_return :
    Absent envSales 999 ∧
      (GetDatabaseName_Oid envSales 999).outcome.isFailure = false ∧
      (GetDatabaseName_Oid envSales 999).outcome = Outcome.returned CString.null := by
  refine ⟨?_, ?_, ?_⟩ <;> decide

/-- Claim C2, amended: for every catalog state and every identifier absent
from it, `GetDatabaseName(Oid)` yields the not-found outcome of the host
lookup and hands back no name. That outcome is the null pointer returned as
the ordinary return value: no error is raised, and no string (in particular no
empty string) is returned. -/
theorem GetDatabaseName_Oid_absent (env : Env) (id : Oid) (h : Absent env id) :
    (GetDatabaseName_Oid env id).outcome = NotFound ∧
      (GetDatabaseName_Oid env id).outcome = Outcome.returned CString.null ∧
      (GetDatabaseName_Oid env id).outcome.name? = none ∧
      (GetDatabaseName_Oid env id).outcome.isFailure = false := by
  unfold GetDatabaseName_Oid
  rw [get_database_name_of_absent env id h]
  exact ⟨rfl, rfl, rfl, rfl⟩

/-- Scenario of claim C2: identifier `999` has never existed in the catalog
holding only databases `1` and `5`. -/
theorem GetDatabaseName_Oid_absent_witness :
    (GetDatabaseName_Oid envDropped 999).outcome = NotFound ∧
      (GetDatabaseName_Oid envDropped 999).outcome = Outcome.returned CString.null ∧
      (GetDatabaseName_Oid envDropped 999).outcome.name? = none ∧
      (GetDatabaseName_Oid envDropped 999).outcome.isFailure = false :=
  GetDatabaseName_Oid_absent envDropped 999 (by decide)

/-- Claim C3: for every catalog state and session state, `GetDatabaseName()`
is the same call as `GetDatabaseName(MyDatabaseId)` on that state: the same
outcome (same name, or same not-found outcome), the same resulting state and
the same catalog lookups. -/
theorem GetDatabaseName_eq_GetDatabaseName_Oid_current (env : Env) :
    GetDatabaseName env = GetDatabaseName_Oid env env.MyDatabaseId := rfl

/-- Claim C4: in a catalog state with unique row identifiers, when the row `r`
is the database the session is connected to, `GetDatabaseName()` returns
normally with a pointer to the name stored in that row. -/
theorem GetDatabaseName_current_present (env : Env) (r : FormData_pg_database)
    (hr : r ∈ env.pg_database) (hcur : r.oid = env.MyDatabaseId) (hu : UniqueOids env) :
    (GetDatabaseName env).outcome = Outcome.returned (CString.ptr r.datname) := by
  unfold GetDatabaseName
  rw [← hcur, get_database_name_of_row env r hr hu]

/-- Scenario of claim C4: the session is connected to database `5`, named
`"sales"`, and `GetDatabaseName()` returns `"sales"`. -/
theorem GetDatabaseName_current_present_witness :
    (GetDatabaseName envSales).outcome = Outcome.returned (CString.ptr "sales") :=
  GetDatabaseName_current_present envSales ⟨5, "sales"⟩ (by decide) rfl (by decide)

/-- Claim C5: when the identifier of the current database maps to no catalog
row, `GetDatabaseName()` ends in the not-found outcome and hands back no name;
the whole call is exactly the one host lookup of `MyDatabaseId`, so the
outcome is the one the host produced, unchanged, and the catalog is consulted
once (no recovery, no retry). -/
theorem GetDatabaseName_current_absent (env : Env) (h : Absent env env.MyDatabaseId) :
    (GetDatabaseName env).outcome = NotFound ∧
      (GetDatabaseName env).outcome.name? = none ∧
      GetDatabaseName env = get_database_name env env.MyDatabaseId ∧
      (GetDatabaseName env).lookups = [env.MyDatabaseId] := by
  unfold GetDatabaseName
  rw [get_database_name_of_absent env env.MyDatabaseId h]
  exact ⟨rfl, rfl, rfl, rfl⟩

/-- Scenario of claim C5: the session is still connected to database `5`
after that database has been dropped. -/
theorem GetDatabaseName_current_absent_witness :
    (GetDatabaseName envDropped).outcome = NotFound ∧
      (GetDatabaseName envDropped).outcome.name? = none ∧
      GetDatabaseName envDropped = get_database_name envDropped envDropped.MyDatabaseId ∧
      (GetDatabaseName envDropped).lookups = [envDropped.MyDatabaseId] :=
  GetDatabaseName_current_absent envDropped (by decide)

/-- Claim C6: no caching across calls. Let `id` be named `n1` in the catalog
of `env` and `n2` in the rows `rows2` (both with unique identifiers). A call
`GetDatabaseName(id)` on `env` returns `n1`; after the catalog rows have been
replaced by `rows2`, a second call on the state left by the first returns
`n2`. The second result is fixed by `rows2` alone: it is `n2` on every state
whose catalog is `rows2`, whatever happened before. -/
theorem GetDatabaseName_Oid_no_caching (env : Env) (rows2 : List FormData_pg_database)
    (id : Oid) (n1 n2 : String)
    (h1 : ⟨id, n1⟩ ∈ env.pg_database) (u1 : UniqueOids env)
    (h2 : ⟨id, n2⟩ ∈ rows2) (u2 : (rows2.map (fun r => r.oid)).Nodup) :
    (GetDatabaseName_Oid env id).outcome = Outcome.returned (CString.ptr n1) ∧
      (GetDatabaseName_Oid (withCatalog (GetDatabaseName_Oid env id).env rows2) id).outcome =
        Outcome.returned (CString.ptr n2) ∧
      ∀ env0 : Env, (GetDatabaseName_Oid (withCatalog env0 rows2) id).outcome =
        Outcome.returned (CString.ptr n2) := by
  have key : ∀ env0 : Env, (GetDatabaseName_Oid (withCatalog env0 rows2) id).outcome =
      Outcome.returned (CString.ptr n2) := by
    intro env0
    unfold GetDatabaseName_Oid
    rw [get_database_name_of_row (withCatalog env0 rows2) ⟨id, n2⟩ h2 u2]
  refine ⟨?_, key _, key⟩
  unfold GetDatabaseName_Oid
  rw [get_database_name_of_row env ⟨id, n1⟩ h1 u1]

/-- Scenario of claim C6: database `5` is renamed from `"sales"` to
`"sales_eu"` between two calls; the calls return `"sales"` and then
`"sales_eu"`. -/
theorem GetDatabaseName_Oid_no_caching_witness :
    (GetDatabaseName_Oid envSales 5).outcome = Outcome.returned (CString.ptr "sales") ∧
      (GetDatabaseName_Oid (withCatalog (GetDatabaseName_Oid envSales 5).env rowsSalesEu) 5).outcome =
        Outcome.returned (CString.ptr "sales_eu") ∧
      ∀ env0 : Env, (GetDatabaseName_Oid (withCatalog env0 rowsSalesEu) 5).outcome =
        Outcome.returned (CString.ptr "sales_eu") :=
  GetDatabaseName_Oid_no_caching envSales rowsSalesEu 5 "sales" "sales_eu"
    (by decide) (by decide) (by decide) (by decide)

/-- Claim C7: read-only contract. For every catalog state, session state and
identifier, the host state after `GetDatabaseName(id)` and after
`GetDatabaseName()` is the state before the call; in particular the catalog
rows and `MyDatabaseId` are unchanged, whether a name or the not-found
outcome comes back. -/
theorem GetDatabaseName_read_only (env : Env) (id : Oid) :
    (GetDatabaseName_Oid env id).env = env ∧ (GetDatabaseName env).env = env ∧
      (GetDatabaseName_Oid env id).env.pg_database = env.pg_database ∧
      (GetDatabaseName_Oid env id).env.MyDatabaseId = env.MyDatabaseId ∧
      (GetDatabaseName env).env.pg_database = env.pg_database ∧
      (GetDatabaseName env).env.MyDatabaseId = env.MyDatabaseId := by
  have a : (GetDatabaseName_Oid env id).env = env := get_database_name_env env id
  have b : (GetDatabaseName env).env = env := get_database_name_env env env.MyDatabaseId
  refine ⟨a, b, ?_, ?_, ?_, ?_⟩
  · rw [a]
  · rw [a]
  · rw [b]
  · rw [b]

/-- Claim C8: idempotence. For every catalog state and identifier, `n`
repeated calls `GetDatabaseName(id)`, each on the state left by the previous
one, all give the outcome of the first call; and that outcome is a function of
the catalog rows and `id` alone (it is the same under every value of the
session global). -/
theorem GetDatabaseName_Oid_idempotent (env : Env) (id : Oid) (n : Nat) :
    callRepeatedly id n env = List.replicate n (GetDatabaseName_Oid env id).outcome ∧
      ∀ m : Oid, (GetDatabaseName_Oid { pg_database := env.pg_database, MyDatabaseId := m } id).outcome =
        (GetDatabaseName_Oid env id).outcome := by
  constructor
  · induction n with
    | zero => rfl
    | succ k ih =>
      have e : (GetDatabaseName_Oid env id).env = env := get_database_name_env env id
      simp only [callRepeatedly, List.replicate_succ, e, ih]
  · intro m
    exact get_database_name_outcome_congr _ env id rfl

/-- Claim C9: `GetDatabaseName(id)` with an explicit identifier does not depend
on the session. For any two host states whose catalogs hold the same entry for
`id`, the outcome is the same in both, whatever the two values of
`MyDatabaseId` are and whatever the other catalog rows are. -/
theorem GetDatabaseName_Oid_session_independent (env1 env2 : Env) (id : Oid)
    (h : entryFor env1 id = entryFor env2 id) :
    (GetDatabaseName_Oid env1 id).outcome = (GetDatabaseName_Oid env2 id).outcome := by
  unfold GetDatabaseName_Oid
  apply get_database_name_outcome_congr
  rw [search_eq_head_filter, search_eq_head_filter]
  unfold entryFor at h
  rw [h]

/-- Instance of claim C9: two sessions connected to different databases
(`5` and `7`), over catalogs that share only the entry for database `5`,
obtain the same outcome for `GetDatabaseName(5)`. -/
theorem GetDatabaseName_Oid_session_independent_witness :
    envSales.MyDatabaseId ≠ envOther.MyDatabaseId ∧
      entryFor envSales 1 ≠ entryFor envOther 1 ∧
      (GetDatabaseName_Oid envSales 5).outcome = (GetDatabaseName_Oid envOther 5).outcome :=
  ⟨by decide, by decide, GetDatabaseName_Oid_session_independent envSales envOther 5 (by decide)⟩

end pgduckdb.pg
